import Mathlib

/-!
Shallow embedding of the token-provisioning protocol code in `src/main.go`
(package `main`): the envelope framing and validation in `Token.Transceive`,
the `xor` and `checksum` helpers, the `GetInfo` and `BurnSeed` commands, and
the keep-alive behaviour of `ScardTag.Transceive`.

Bytes are modelled as `Nat` (Go `uint8` arithmetic made explicit with `% 256`
where the code can wrap, `% 65536` for `uint16`). Go's two failure channels
are modelled separately: an `error` return becomes `GoResult.err` and a
runtime panic (index or slice out of range) becomes `GoResult.panic`.
-/

namespace C200

/-- Go `error` values that the program can return.  `transport e` stands for an
opaque error coming out of the card transport; `unknownHeader` is
`fmt.Errorf("unknown response header byte")` and `checksumIncorrect` is
`fmt.Errorf("response checksum incorrect")` from `Token.Transceive`. -/
inductive GoErr where
  | transport : Nat → GoErr
  | unknownHeader : GoErr
  | checksumIncorrect : GoErr
deriving DecidableEq

/-- Go runtime panics that the protocol code can hit: an index expression
out of range, or a slice expression `s[low:high]` with `low > high` or
`high > len(s)`. -/
inductive GoPanic where
  | indexOutOfRange : GoPanic
  | sliceBounds : GoPanic
deriving DecidableEq

/-- Outcome of a Go call that returns `(T, error)` and may also panic. -/
inductive GoResult (α : Type) where
  | ok : α → GoResult α
  | err : GoErr → GoResult α
  | panic : GoPanic → GoResult α
deriving DecidableEq

/-- `func xor(data ...uint8) (ret uint8)` (main.go:55-60): left-to-right XOR
fold of all bytes starting from 0. -/
def xor (data : List Nat) : Nat :=
  data.foldl Nat.xor 0

/-- The outbound frame built at the top of `Token.Transceive` (main.go:63-65):
`buffer := []byte{0x86, uint8(len(data)+1)}; append(buffer, data...);
append(buffer, xor(data...))`.  The cast `uint8(len(data)+1)` wraps mod 256. -/
def frame (data : List Nat) : List Nat :=
  0x86 :: ((data.length + 1) % 256) :: (data ++ [xor data])

/-- Reply validation in `Token.Transceive` (main.go:70-76), including the Go
runtime panics its index/slice expressions can raise:
* `resp[0]` panics on an empty reply, else a header other than `0xAA` returns
  the `unknownHeader` error;
* `resp[1]` panics when the reply has fewer than 2 bytes;
* the checksum position `2+resp[1]-1` is computed in `uint8` arithmetic, so it
  equals `(resp[1]+1) % 256`; indexing it panics when it is `≥ len(resp)`;
* the payload slice `resp[2 : 2+resp[1]-1]` panics when the upper bound is
  below 2;
* otherwise the checksum byte is compared against the XOR fold of the payload
  region and the payload `resp[2 : 2+resp[1]-1]` is returned on success. -/
def unframe (resp : List Nat) : GoResult (List Nat) :=
  if resp.length = 0 then
    GoResult.panic GoPanic.indexOutOfRange
  else if resp.getD 0 0 ≠ 0xAA then
    GoResult.err GoErr.unknownHeader
  else if resp.length < 2 then
    GoResult.panic GoPanic.indexOutOfRange
  else if resp.length ≤ (resp.getD 1 0 + 1) % 256 then
    GoResult.panic GoPanic.indexOutOfRange
  else if (resp.getD 1 0 + 1) % 256 < 2 then
    GoResult.panic GoPanic.sliceBounds
  else if resp.getD ((resp.getD 1 0 + 1) % 256) 0 ≠
      xor ((resp.drop 2).take ((resp.getD 1 0 + 1) % 256 - 2)) then
    GoResult.err GoErr.checksumIncorrect
  else
    GoResult.ok ((resp.drop 2).take ((resp.getD 1 0 + 1) % 256 - 2))

/-- The fixed keep-alive SELECT APDU `[]byte{0x00, 0xa4, 0x04, 0x00}` sent by
`ScardTag.Transceive` (main.go:33). -/
def probe : List Nat :=
  [0x00, 0xA4, 0x04, 0x00]

/-- `ScardTag.Transceive` (main.go:31-38) over an abstract raw transport
(`transceiveRaw`/`Card.Transmit`), instrumented with the list of raw frames
actually transmitted: it first sends the keep-alive `probe`; on probe failure
it returns the transport error without sending `data`; otherwise it sends
`data` and returns the raw reply. -/
def scardTransceiveT (raw : List Nat → Except GoErr (List Nat)) (data : List Nat) :
    List (List Nat) × Except GoErr (List Nat) :=
  match raw probe with
  | Except.error e => ([probe], Except.error e)
  | Except.ok _ => ([probe, data], raw data)

/-- `Token.Transceive` (main.go:62-77) over the full stack (Token over
`ScardTag` over a raw transport), instrumented with the list of raw frames
handed to the transport: frame the payload, send it through
`ScardTag.Transceive`, and unframe the reply. -/
def tokenTransceiveT (raw : List Nat → Except GoErr (List Nat)) (data : List Nat) :
    List (List Nat) × GoResult (List Nat) :=
  let s := scardTransceiveT raw (frame data)
  (s.1,
   match s.2 with
   | Except.error e => GoResult.err e
   | Except.ok resp => unframe resp)

/-- `Token.Transceive` (main.go:62-77) over an abstract `Tag.Transceive`
collaborator `tag`: frame the payload, send it, unframe the reply. -/
def Transceive (tag : List Nat → Except GoErr (List Nat)) (data : List Nat) :
    GoResult (List Nat) :=
  match tag (frame data) with
  | Except.error e => GoResult.err e
  | Except.ok resp => unframe resp

/-- `Token.GetInfo` (main.go:79-81): transceive with payload `[0x10]`. -/
def GetInfo (tag : List Nat → Except GoErr (List Nat)) : GoResult (List Nat) :=
  Transceive tag [0x10]

/-- The loop of `func checksum(data []byte) uint16` (main.go:83-90):
`binary.Read` consumes two bytes at a time as a big-endian `uint16` and stops
as soon as fewer than two bytes remain (a trailing odd byte is dropped); the
accumulator is a `uint16`, so each addition wraps mod 2^16. -/
def checksumLoop : List Nat → Nat → Nat
  | a :: b :: rest, acc => checksumLoop rest ((acc + (a * 256 + b)) % 65536)
  | _, acc => acc

/-- `func checksum(data []byte) uint16` (main.go:83-90): the big-endian word
sum, then `checksum |= 0x5115`. -/
def checksum (data : List Nat) : Nat :=
  checksumLoop data 0 ||| 0x5115

/-- `binary.BigEndian.AppendUint16` (main.go:95): append the high byte then
the low byte of a `uint16`. -/
def be16 (v : Nat) : List Nat :=
  [v / 256 % 256, v % 256]

/-- `Token.BurnSeed` (main.go:92-107) over an abstract `Tag.Transceive`
collaborator, instrumented with the list of `Token.Transceive` payloads it
sends: build `buffer = seed || 0x06 || 0x1E || be16(checksum(seed))`, call
`GetInfo` (propagating failure), read `key := data[5]` (a Go index expression
that panics when the info payload has fewer than 6 bytes), XOR every buffer
byte with `key`, and transceive `[0x18] || buffer`, returning its result. -/
def BurnSeedT (tag : List Nat → Except GoErr (List Nat)) (seed : List Nat) :
    List (List Nat) × GoResult (List Nat) :=
  match GetInfo tag with
  | GoResult.ok data =>
      match data[5]? with
      | none => ([[0x10]], GoResult.panic GoPanic.indexOutOfRange)
      | some key =>
          ([[0x10],
            0x18 :: (seed ++ [6, 30] ++ be16 (checksum seed)).map (fun b => Nat.xor b key)],
           Transceive tag
             (0x18 :: (seed ++ [6, 30] ++ be16 (checksum seed)).map (fun b => Nat.xor b key)))
  | GoResult.err e => ([[0x10]], GoResult.err e)
  | GoResult.panic s => ([[0x10]], GoResult.panic s)

/-- Modelled from the spec (§8, property 1): `swap_header` simulates a device
echoing a well-formed reply by replacing the frame's header byte with `0xAA`. -/
def swapHeader (l : List Nat) : List Nat :=
  match l with
  | [] => []
  | _ :: t => 0xAA :: t

/-- Modelled from the spec (§8, property 7): a fake device reply that frames a
payload `q` the way a well-formed token reply is framed: header `0xAA`, length
`len(q)+1`, the payload, and its XOR fold. -/
def mkReply (q : List Nat) : List Nat :=
  0xAA :: ((q.length + 1) % 256) :: (q ++ [xor q])

/-- Modelled from the spec (§8, property 7): a fake transport that answers
every request with the same framed reply `mkReply q`. -/
def tagConst (q : List Nat) : List Nat → Except GoErr (List Nat) :=
  fun _ => Except.ok (mkReply q)

/-- Modelled from the spec's words (§4.4 and claim C7): the big-endian 16-bit
words of `data`, taken in order, a trailing odd byte excluded. -/
def words16 : List Nat → List Nat
  | a :: b :: rest => (a * 256 + b) :: words16 rest
  | _ => []

/-- Modelled from the spec's words (§4.4 and claim C7): the sum of the
big-endian 16-bit words modulo 2^16, OR-ed with the mask `0x5115`. -/
def checksumSpec (data : List Nat) : Nat :=
  (words16 data).sum % 65536 ||| 0x5115

/-- A raw transport whose every transmission fails with a fixed transport
error, for exercising the keep-alive failure path. -/
def rawFail : List Nat → Except GoErr (List Nat) :=
  fun _ => Except.error (GoErr.transport 7)

/-- Heap-level model of the buffer construction in `BurnSeed` (main.go:93-95,
102-104).  The heap is a list of byte arrays; a slice is an index into it.
`append([]byte(nil), seed...)` allocates a fresh array holding a copy of the
seed bytes; the later appends and the XOR loop write only that fresh array
(or reallocations of it), never the seed's array.  Returns the final heap and
the buffer's array id. -/
def burnBufferHeap (h : List (List Nat)) (seedId : Nat) (key : Nat) :
    List (List Nat) × Nat :=
  let seed := h.getD seedId []
  let h1 := h ++ [seed]
  let bufId := h.length
  let h2 := h1.set bufId (seed ++ [6, 30] ++ be16 (checksum seed))
  let h3 := h2.set bufId ((h2.getD bufId []).map (fun b => Nat.xor b key))
  (h3, bufId)

/-! ### Helper lemmas -/

theorem take_concat_length {α : Type} (l : List α) (a : α) :
    (l ++ [a]).take l.length = l := by
  induction l with
  | nil => rfl
  | cons x xs ih =>
      simp only [List.cons_append, List.length_cons, List.take_succ_cons, ih]

theorem getD_concat_length {α : Type} (l : List α) (a d : α) :
    (l ++ [a]).getD l.length d = a := by
  rw [List.getD_append_right l [a] d l.length (Nat.le_refl _)]
  simp

theorem getD_append_lt {α : Type} (l l' : List α) (d : α) (i : Nat) (h : i < l.length) :
    (l ++ l').getD i d = l.getD i d :=
  List.getD_append l l' d i h

theorem getD_set_ne {α : Type} (l : List α) (i j : Nat) (a d : α) (h : i ≠ j) :
    (l.set i a).getD j d = l.getD j d := by
  rw [List.getD_eq_getD_get?, List.getD_eq_getD_get?, List.get?_eq_getElem?,
    List.get?_eq_getElem?, List.getElem?_set_ne h]

theorem checksumLoop_eq : ∀ (l : List Nat) (acc : Nat), acc < 65536 →
    checksumLoop l acc = (acc + (words16 l).sum) % 65536
  | [], acc, h => by
      simp [checksumLoop, words16, Nat.mod_eq_of_lt h]
  | [a], acc, h => by
      simp [checksumLoop, words16, Nat.mod_eq_of_lt h]
  | a :: b :: rest, acc, h => by
      have ih := checksumLoop_eq rest ((acc + (a * 256 + b)) % 65536)
        (Nat.mod_lt _ (by omega))
      simp only [checksumLoop, words16, List.sum_cons]
      rw [ih, Nat.mod_add_mod]
      congr 1
      omega

theorem or_and_self_mask (x m : Nat) : (x ||| m) &&& m = m := by
  apply Nat.eq_of_testBit_eq
  intro i
  rw [Nat.testBit_and, Nat.testBit_or]
  cases hx : x.testBit i <;> cases hm : m.testBit i <;> rfl

/-! ### Claim theorems -/

/-- Claim C1 (corrected): during `BurnSeed` the session key is the byte at
zero-based offset 5 of the info payload (`key := data[5]`, main.go:101), not
offset 4; and when the info payload has fewer than 6 bytes the index
expression panics with an index-out-of-range error — there is no
`ProtocolError("info too short")` path in the code. -/
theorem burnSeed_session_key_offset (tag : List Nat → Except GoErr (List Nat))
    (seed info : List Nat) (hinfo : GetInfo tag = GoResult.ok info) :
    (info.length < 6 →
      BurnSeedT tag seed = ([[0x10]], GoResult.panic GoPanic.indexOutOfRange)) ∧
    (∀ k, info[5]? = some k →
      BurnSeedT tag seed =
        ([[0x10],
          0x18 :: (seed ++ [6, 30] ++ be16 (checksum seed)).map (fun b => Nat.xor b k)],
         Transceive tag
           (0x18 :: (seed ++ [6, 30] ++ be16 (checksum seed)).map (fun b => Nat.xor b k)))) := by
  constructor
  · intro h6
    have hnone : info[5]? = none := List.getElem?_eq_none (by omega)
    simp [BurnSeedT, hinfo, hnone]
  · intro k hk
    simp [BurnSeedT, hinfo, hk]

/-- Witness for C1's amended theorem: a 4-byte info payload makes `BurnSeed`
panic, and with the 6-byte info `[0,0,0,0,0,0x2A]` the key used is the byte at
offset 5, namely `0x2A`. -/
theorem burnSeed_session_key_offset_witness :
    BurnSeedT (tagConst [0, 0, 0, 0]) [0x11] =
      ([[0x10]], GoResult.panic GoPanic.indexOutOfRange) ∧
    BurnSeedT (tagConst [0, 0, 0, 0, 0, 0x2A]) [0x11] =
      ([[0x10],
        0x18 :: ([0x11] ++ [6, 30] ++ be16 (checksum [0x11])).map (fun b => Nat.xor b 0x2A)],
       Transceive (tagConst [0, 0, 0, 0, 0, 0x2A])
         (0x18 :: ([0x11] ++ [6, 30] ++ be16 (checksum [0x11])).map (fun b => Nat.xor b 0x2A))) :=
  ⟨(burnSeed_session_key_offset (tagConst [0, 0, 0, 0]) [0x11] [0, 0, 0, 0]
      (by decide)).1 (by decide),
   (burnSeed_session_key_offset (tagConst [0, 0, 0, 0, 0, 0x2A]) [0x11]
      [0, 0, 0, 0, 0, 0x2A] (by decide)).2 0x2A (by decide)⟩

/-- Counterexample to claim C1 as stated: with a device whose info payload is
the 5-byte `[0, 0, 0, 0, 0x2A]` (so the claim says the session key
`info[4] = 0x2A` is extracted and the burn proceeds, since the payload is not
shorter than 5 bytes), the code instead panics reading `data[5]` and never
sends a burn command; in particular no `ProtocolError` is produced. -/
theorem burnSeed_session_key_offset_cex :
    (BurnSeedT (tagConst [0, 0, 0, 0, 0x2A]) [0x11, 0x22]).2 =
      GoResult.panic GoPanic.indexOutOfRange ∧
    (BurnSeedT (tagConst [0, 0, 0, 0, 0x2A]) [0x11, 0x22]).1 = [[0x10]] := by
  decide

/-- Claim C4 (code bug): a reply declaring a zero-length body
(`[0xAA, 0x00, ...]`) is not handled without out-of-bounds access: the
checksum position `2+0-1 = 1` is below the payload start, so the payload
slice becomes `resp[2:1]`, whose bounds are inverted, and the code panics
with a slice-bounds violation instead of returning the empty payload. -/
theorem unframe_zero_length_panics (rest : List Nat) :
    unframe (0xAA :: 0 :: rest) = GoResult.panic GoPanic.sliceBounds := by
  unfold unframe
  rw [if_neg (by simp), if_neg (by simp), if_neg (by simp),
    if_neg (by simp), if_pos (by simp)]

/-- Claim C7 (confirmed): `checksum` equals the sum modulo 2^16 of the
big-endian 16-bit words of the input taken in order (a trailing odd byte
excluded from the sum) OR-ed with `0x5115`, and consequently
`checksum data &&& 0x5115 = 0x5115` for every input. -/
theorem checksum_spec_and_mask (data : List Nat) :
    checksum data = checksumSpec data ∧ checksum data &&& 0x5115 = 0x5115 := by
  constructor
  · show checksumLoop data 0 ||| 0x5115 = (words16 data).sum % 65536 ||| 0x5115
    rw [checksumLoop_eq data 0 (by omega), Nat.zero_add]
  · exact or_and_self_mask _ _

/-- Claim C8 (confirmed): `ScardTag.Transceive` always sends the fixed probe
`[0x00, 0xA4, 0x04, 0x00]` first; when the probe succeeds the real payload is
sent immediately after it, and when the probe fails the call aborts with that
transport error and the real payload is never transmitted. -/
theorem keepalive_ordering (raw : List Nat → Except GoErr (List Nat)) (data : List Nat) :
    (∀ x, raw probe = Except.ok x →
      scardTransceiveT raw data = ([probe, data], raw data)) ∧
    (∀ e, raw probe = Except.error e →
      scardTransceiveT raw data = ([probe], Except.error e)) := by
  constructor
  · intro x hx
    simp [scardTransceiveT, hx]
  · intro e he
    simp [scardTransceiveT, he]

/-- Witness for C8: on a transport that always succeeds, the probe precedes
the real payload; on one that always fails, only the probe is sent and the
transport error is surfaced. -/
theorem keepalive_ordering_witness :
    scardTransceiveT (tagConst [1]) [0x10] = ([probe, [0x10]], tagConst [1] [0x10]) ∧
    scardTransceiveT rawFail [0x10] = ([probe], Except.error (GoErr.transport 7)) :=
  ⟨(keepalive_ordering (tagConst [1]) [0x10]).1 (mkReply [1]) rfl,
   (keepalive_ordering rawFail [0x10]).2 (GoErr.transport 7) rfl⟩

/-- Claim C10 (confirmed): `BurnSeed` never mutates the caller's seed array:
`append([]byte(nil), seed...)` allocates a fresh buffer array, and the later
appends and the in-place XOR write only that fresh array, so the seed's array
holds exactly its original bytes afterwards (and the buffer is a different
array from the seed). -/
theorem burnSeed_preserves_seed (h : List (List Nat)) (seedId key : Nat)
    (hs : seedId < h.length) :
    (burnBufferHeap h seedId key).1.getD seedId [] = h.getD seedId [] ∧
    (burnBufferHeap h seedId key).2 ≠ seedId := by
  constructor
  · simp only [burnBufferHeap]
    rw [getD_set_ne _ _ _ _ _ (by omega), getD_set_ne _ _ _ _ _ (by omega),
      getD_append_lt _ _ _ _ hs]
  · simp only [burnBufferHeap]
    omega

/-- Claim C2 (corrected): the framing round-trip holds for payloads of length
at most 253: unframing the frame with its header byte replaced by `0xAA`
returns exactly the payload. -/
theorem framing_round_trip (p : List Nat) (hp : p.length ≤ 253) :
    unframe (swapHeader (frame p)) = GoResult.ok p := by
  have h1 : swapHeader (frame p) = 0xAA :: (p.length + 1) :: (p ++ [xor p]) := by
    show 0xAA :: ((p.length + 1) % 256) :: (p ++ [xor p]) = _
    rw [Nat.mod_eq_of_lt (by omega)]
  rw [h1]
  unfold unframe
  simp only [List.length_cons, List.length_append, List.length_cons, List.length_nil,
    List.getD_cons_zero, List.getD_cons_succ, List.drop_succ_cons, List.drop_zero]
  rw [Nat.mod_eq_of_lt (show p.length + 1 + 1 < 256 by omega)]
  rw [if_neg (by omega), if_neg (by simp), if_neg (by omega), if_neg (by omega),
    if_neg (by omega)]
  have hidx : p.length + 1 + 1 - 2 = p.length := by omega
  rw [hidx, take_concat_length]
  have hcs : (0xAA :: (p.length + 1) :: (p ++ [xor p])).getD (p.length + 1 + 1) 0 = xor p := by
    simp only [List.getD_cons_succ]
    exact getD_concat_length p (xor p) 0
  rw [hcs, if_neg (by simp)]

/-- Witness for C2's amended theorem at the two-byte payload `[0x41, 0x42]`. -/
theorem framing_round_trip_witness :
    unframe (swapHeader (frame [0x41, 0x42])) = GoResult.ok [0x41, 0x42] :=
  framing_round_trip [0x41, 0x42] (by decide)

set_option maxRecDepth 40000 in
/-- Counterexample to claim C2 as stated: at the claimed bound
`len(p) = 254` the declared length byte is 255, and the `uint8` index
arithmetic `2+255-1` wraps to 0, so unframing panics on the inverted payload
slice `resp[2:0]` instead of returning the payload. -/
theorem framing_round_trip_cex :
    unframe (swapHeader (frame (List.replicate 254 0))) = GoResult.panic GoPanic.sliceBounds ∧
    unframe (swapHeader (frame (List.replicate 254 0))) ≠ GoResult.ok (List.replicate 254 0) := by
  decide

/-- Claim C3 (corrected): a nonempty reply whose first byte is not `0xAA` is
rejected with the unknown-header error (an empty reply instead panics with an
index-out-of-range error, see the counterexample); and a reply with header
`0xAA` and declared length `n = resp[1]` with `1 ≤ n ≤ 254` and
`2+n-1 < len(resp)` is rejected with the checksum error whenever the byte at
position `2+n-1` differs from the XOR fold of `resp[2 : 2+n-1]`; no payload
is returned in either case. -/
theorem unframe_rejections (resp : List Nat) :
    (resp.length ≠ 0 → resp.getD 0 0 ≠ 0xAA →
      unframe resp = GoResult.err GoErr.unknownHeader) ∧
    (∀ n, 2 ≤ resp.length → resp.getD 0 0 = 0xAA → resp.getD 1 0 = n →
      1 ≤ n → n ≤ 254 → n + 1 < resp.length →
      resp.getD (n + 1) 0 ≠ xor ((resp.drop 2).take (n - 1)) →
      unframe resp = GoResult.err GoErr.checksumIncorrect) := by
  constructor
  · intro h0 hh
    unfold unframe
    rw [if_neg h0, if_pos hh]
  · intro n h2 hh hn h1n h254 hlt hmis
    unfold unframe
    rw [hn, hh]
    rw [Nat.mod_eq_of_lt (show n + 1 < 256 by omega)]
    rw [if_neg (by omega), if_neg (by simp), if_neg (by omega), if_neg (by omega),
      if_neg (by omega)]
    have hidx : n + 1 - 2 = n - 1 := by omega
    rw [hidx, if_pos hmis]

/-- Witness for C3's amended theorem: the spec's own test vectors — the bad
header `[0x00, 0x01, 0x00]` and the bad checksum `[0xAA, 0x02, 0x41, 0x00]`
(checksum byte `0x00` differs from the fold `0x41`). -/
theorem unframe_rejections_witness :
    unframe [0x00, 0x01, 0x00] = GoResult.err GoErr.unknownHeader ∧
    unframe [0xAA, 0x02, 0x41, 0x00] = GoResult.err GoErr.checksumIncorrect :=
  ⟨(unframe_rejections [0x00, 0x01, 0x00]).1 (by decide) (by decide),
   (unframe_rejections [0xAA, 0x02, 0x41, 0x00]).2 2 (by decide) (by decide) (by decide)
     (by decide) (by decide) (by decide) (by decide)⟩

/-- Counterexample to claim C3 as stated: an empty reply does not produce the
unknown-header `ProtocolError` — the index expression `resp[0]` panics with
index out of range. -/
theorem unframe_rejections_cex :
    unframe [] = GoResult.panic GoPanic.indexOutOfRange ∧
    unframe [] ≠ GoResult.err GoErr.unknownHeader := by
  decide

/-- Claim C5 (confirmed): for payloads of length at most 254, when the
keep-alive probe succeeds, the bytes handed to the transport for the real
transmission are exactly `[0x86, len(payload)+1] ++ payload ++ [c]`, with `c`
the left-to-right XOR fold of the payload bytes starting from 0. -/
theorem outbound_frame_bytes (raw : List Nat → Except GoErr (List Nat))
    (data x : List Nat) (hlen : data.length ≤ 254)
    (hraw : raw probe = Except.ok x) :
    (tokenTransceiveT raw data).1 =
      [probe, 0x86 :: (data.length + 1) :: (data ++ [data.foldl Nat.xor 0])] := by
  have hf : frame data = 0x86 :: (data.length + 1) :: (data ++ [data.foldl Nat.xor 0]) := by
    show 0x86 :: ((data.length + 1) % 256) :: (data ++ [xor data]) = _
    rw [Nat.mod_eq_of_lt (by omega)]
    rfl
  simp [tokenTransceiveT, scardTransceiveT, hraw, hf]

/-- Witness for C5 at the payload `[0x11, 0x22]` over a transport that always
replies with a fixed well-formed frame. -/
theorem outbound_frame_bytes_witness :
    (tokenTransceiveT (tagConst [1]) [0x11, 0x22]).1 =
      [probe,
       0x86 :: (([0x11, 0x22] : List Nat).length + 1) ::
         ([0x11, 0x22] ++ [([0x11, 0x22] : List Nat).foldl Nat.xor 0])] :=
  outbound_frame_bytes (tagConst [1]) [0x11, 0x22] (mkReply [1]) (by decide) rfl

/-- Claim C6 (confirmed): every `BurnSeed` call first performs a fresh
`GetInfo` round-trip (the payload `[0x10]` is the first transceive of every
call — nothing is cached between calls in this stateless code), then sends
exactly one further transceive whose payload is `0x18` followed by
`seed || 0x06 || 0x1E || checksum16(seed)` (big-endian, 2 bytes) with every
byte of that buffer XORed with the session key (the info byte at offset 5,
spec §3), and returns that transmission's unframed reply. -/
theorem burnSeed_wire_behaviour (tag : List Nat → Except GoErr (List Nat))
    (seed info : List Nat) (k : Nat)
    (hinfo : Transceive tag [0x10] = GoResult.ok info)
    (hk : info[5]? = some k) :
    BurnSeedT tag seed =
      ([[0x10],
        0x18 :: (seed ++ [6, 30] ++ be16 (checksum seed)).map (fun b => Nat.xor b k)],
       Transceive tag
         (0x18 :: (seed ++ [6, 30] ++ be16 (checksum seed)).map (fun b => Nat.xor b k))) := by
  simp [BurnSeedT, GetInfo, hinfo, hk]

/-- Witness for C6: the spec §8 scenario adapted to the code's key offset —
info payload `[0, 0, 0, 0, 0, 0x2A]` (key `0x2A`), seed `[0x11, 0x22]`. -/
theorem burnSeed_wire_behaviour_witness :
    BurnSeedT (tagConst [0, 0, 0, 0, 0, 0x2A]) [0x11, 0x22] =
      ([[0x10],
        0x18 :: ([0x11, 0x22] ++ [6, 30] ++ be16 (checksum [0x11, 0x22])).map
          (fun b => Nat.xor b 0x2A)],
       Transceive (tagConst [0, 0, 0, 0, 0, 0x2A])
         (0x18 :: ([0x11, 0x22] ++ [6, 30] ++ be16 (checksum [0x11, 0x22])).map
           (fun b => Nat.xor b 0x2A))) :=
  burnSeed_wire_behaviour (tagConst [0, 0, 0, 0, 0, 0x2A]) [0x11, 0x22]
    [0, 0, 0, 0, 0, 0x2A] 0x2A (by decide) (by decide)

/-- Claim C9 (corrected): for payloads longer than 254 bytes framing does not
fail with any error; when the probe succeeds, the frame is handed to the
transport with its length byte silently wrapped to `(len(payload)+1) mod
256`. -/
theorem oversized_payload_wraps (raw : List Nat → Except GoErr (List Nat))
    (data x : List Nat) (_hlen : 254 < data.length)
    (hraw : raw probe = Except.ok x) :
    (tokenTransceiveT raw data).1 =
      [probe, 0x86 :: ((data.length + 1) % 256) :: (data ++ [xor data])] := by
  simp [tokenTransceiveT, scardTransceiveT, hraw, frame]

set_option maxRecDepth 40000 in
/-- Witness for C9's amended theorem at a 255-byte payload: the length byte
wraps to `(255+1) mod 256 = 0` and the frame is still transmitted. -/
theorem oversized_payload_wraps_witness :
    (tokenTransceiveT (tagConst [1]) (List.replicate 255 0)).1 =
      [probe,
       0x86 :: (((List.replicate 255 0 : List Nat).length + 1) % 256) ::
         (List.replicate 255 0 ++ [xor (List.replicate 255 0)])] :=
  oversized_payload_wraps (tagConst [1]) (List.replicate 255 0) (mkReply [1])
    (by decide) rfl

set_option maxRecDepth 40000 in
/-- Counterexample to claim C9 as stated: framing a 255-byte payload produces
no `EncodingError` — there is no failure path in the frame construction — and
the emitted frame's length byte has silently wrapped to 0. -/
theorem oversized_payload_cex :
    frame (List.replicate 255 0) = 0x86 :: 0 :: (List.replicate 255 0 ++ [0]) := by
  decide

/-- Witness for C10: a one-array heap holding the seed `[0x11, 0x22]` is
unchanged at the seed's slot by the burn-buffer construction. -/
theorem burnSeed_preserves_seed_witness :
    (burnBufferHeap [[0x11, 0x22]] 0 0x2A).1.getD 0 [] = [0x11, 0x22] ∧
    (burnBufferHeap [[0x11, 0x22]] 0 0x2A).2 ≠ 0 :=
  burnSeed_preserves_seed [[0x11, 0x22]] 0 0x2A (by decide)

end C200
